import Mathlib

/-!
Verification development for the worker-health simulation engine
(simulation module, Python-bridge model loader and pure-JS model loader).

The numeric model uses exact rationals; JavaScript
rounding (Math.round, half toward positive infinity) is modelled
explicitly, and every clamp (Math.min / Math.max) is kept exactly where
the source applies it.
-/

namespace HealthSim

/-- JavaScript Math.round: round half toward positive infinity. -/
def jsRound (q : ℚ) : ℤ := ⌊q + 1/2⌋

/-- Math.round(x * 10) / 10 : round to one decimal place. -/
def round1 (q : ℚ) : ℚ := (jsRound (q * 10) : ℚ) / 10

/-- Math.round(x * 100) / 100 : round to two decimal places. -/
def round2 (q : ℚ) : ℚ := (jsRound (q * 100) : ℚ) / 100

/-- Math.round(x * 1000) / 1000 : round to three decimal places. -/
def round3 (q : ℚ) : ℚ := (jsRound (q * 1000) : ℚ) / 1000

/-- Math.round(x * 10000) / 10000 : round to four decimal places. -/
def round4 (q : ℚ) : ℚ := (jsRound (q * 10000) : ℚ) / 10000

/-! ## Simulation configuration constants (simulation.ts, lines 10-55) -/

def TEMPERATURE_INCREMENT : ℚ := 12/10
def HUMIDITY_INCREMENT : ℚ := 35/10
def MAX_TEMPERATURE : ℚ := 34
def MIN_TEMPERATURE : ℚ := 10
def MAX_HUMIDITY : ℚ := 90
def MIN_HUMIDITY : ℚ := 20

def HRV_INCREASE_RMSSD : ℚ := 104/100
def HRV_INCREASE_SDNN : ℚ := 103/100
def HRV_INCREASE_PNN50 : ℚ := 105/100
def HRV_INCREASE_POWER : ℚ := 106/100
def HRV_INCREASE_LF : ℚ := 103/100
def HRV_INCREASE_HF : ℚ := 108/100

def HRV_DECREASE_RMSSD : ℚ := 96/100
def HRV_DECREASE_SDNN : ℚ := 97/100
def HRV_DECREASE_PNN50 : ℚ := 93/100
def HRV_DECREASE_POWER : ℚ := 92/100
def HRV_DECREASE_LF : ℚ := 94/100
def HRV_DECREASE_HF : ℚ := 90/100
def HEART_RATE_STRESS_INCREMENT : ℚ := 15/10
def HEART_RATE_RECOVERY_DECREMENT : ℚ := 12/10

def MAX_SIMULATION_STEPS : ℕ := 100

/-- Simulation mode ('heatup' | 'cooldown'). -/
inductive SimulationType where
  | heatup
  | cooldown
deriving DecidableEq

/-- A worker record: the fields the simulation engine reads or writes. -/
structure Worker where
  name : String
  id : String
  temperature : ℚ
  humidity : ℚ
  hrv_mean_hr : ℚ
  hrv_rmssd : ℚ
  hrv_sdnn : ℚ
  hrv_mean_nni : ℚ
  hrv_pnni_50 : ℚ
  hrv_total_power : ℚ
  hrv_lf : ℚ
  hrv_hf : ℚ
  hrv_min_hr : ℚ
  hrv_max_hr : ℚ
  hrv_std_hr : ℚ
  hrv_lf_hf_ratio : ℚ
  hrv_median_nni : ℚ
  hrv_range_nni : ℚ
  hrv_cvnni : ℚ
  riskScore : Option ℚ
  predictedClass : Option String
  confidence : Option ℚ
deriving DecidableEq

/-- The ten intermediate values computed by calculateNextSimulationValues
before rounding (the local variables newTemp .. newHF). -/
structure RawNext where
  newTemp : ℚ
  newHumidity : ℚ
  newMeanHR : ℚ
  newRMSSD : ℚ
  newSDNN : ℚ
  newMeanNNI : ℚ
  newPNN50 : ℚ
  newTotalPower : ℚ
  newLF : ℚ
  newHF : ℚ
deriving DecidableEq

/-- The mode-specific branch of calculateNextSimulationValues
(simulation.ts lines 162-191). -/
def rawNext (currentWorker : Worker) (simulationType : SimulationType) : RawNext :=
  match simulationType with
  | .heatup =>
    { newTemp := min MAX_TEMPERATURE (currentWorker.temperature + TEMPERATURE_INCREMENT)
      newHumidity := min MAX_HUMIDITY (currentWorker.humidity + HUMIDITY_INCREMENT)
      newMeanHR := min 110 (currentWorker.hrv_mean_hr + HEART_RATE_STRESS_INCREMENT)
      newRMSSD := min 120 (currentWorker.hrv_rmssd * HRV_INCREASE_RMSSD)
      newSDNN := min 150 (currentWorker.hrv_sdnn * HRV_INCREASE_SDNN)
      newMeanNNI := min 1200 (currentWorker.hrv_mean_nni * (104/100))
      newPNN50 := min 50 (currentWorker.hrv_pnni_50 * HRV_INCREASE_PNN50)
      newTotalPower := min 5000 (currentWorker.hrv_total_power * HRV_INCREASE_POWER)
      newLF := min 1500 (currentWorker.hrv_lf * HRV_INCREASE_LF)
      newHF := min 1000 (currentWorker.hrv_hf * HRV_INCREASE_HF) }
  | .cooldown =>
    { newTemp := max MIN_TEMPERATURE (currentWorker.temperature - TEMPERATURE_INCREMENT)
      newHumidity := max MIN_HUMIDITY (currentWorker.humidity - HUMIDITY_INCREMENT)
      newMeanHR := max 50 (currentWorker.hrv_mean_hr - HEART_RATE_RECOVERY_DECREMENT)
      newRMSSD := max 15 (currentWorker.hrv_rmssd * HRV_DECREASE_RMSSD)
      newSDNN := max 20 (currentWorker.hrv_sdnn * HRV_DECREASE_SDNN)
      newMeanNNI := min 1200 (currentWorker.hrv_mean_nni * (104/100))
      newPNN50 := max 5 (currentWorker.hrv_pnni_50 * HRV_DECREASE_PNN50)
      newTotalPower := max 800 (currentWorker.hrv_total_power * HRV_DECREASE_POWER)
      newLF := max 200 (currentWorker.hrv_lf * HRV_DECREASE_LF)
      newHF := max 100 (currentWorker.hrv_hf * HRV_DECREASE_HF) }

/-- The Partial<Worker> object returned by calculateNextSimulationValues
(the seventeen numeric fields of the object literal at lines 193-212). -/
structure SimValues where
  temperature : ℚ
  humidity : ℚ
  hrv_mean_hr : ℚ
  hrv_rmssd : ℚ
  hrv_sdnn : ℚ
  hrv_mean_nni : ℚ
  hrv_pnni_50 : ℚ
  hrv_total_power : ℚ
  hrv_lf : ℚ
  hrv_hf : ℚ
  hrv_min_hr : ℚ
  hrv_max_hr : ℚ
  hrv_std_hr : ℚ
  hrv_lf_hf_ratio : ℚ
  hrv_median_nni : ℚ
  hrv_range_nni : ℚ
  hrv_cvnni : ℚ
deriving DecidableEq

/-- calculateNextSimulationValues (simulation.ts lines 136-213): the
Signal Generator. -/
def calculateNextSimulationValues (currentWorker : Worker)
    (simulationType : SimulationType) : SimValues :=
  let r := rawNext currentWorker simulationType
  { temperature := round1 r.newTemp
    humidity := round1 r.newHumidity
    hrv_mean_hr := round1 r.newMeanHR
    hrv_rmssd := round1 r.newRMSSD
    hrv_sdnn := round1 r.newSDNN
    hrv_mean_nni := (jsRound r.newMeanNNI : ℚ)
    hrv_pnni_50 := round1 r.newPNN50
    hrv_total_power := (jsRound r.newTotalPower : ℚ)
    hrv_lf := (jsRound r.newLF : ℚ)
    hrv_hf := (jsRound r.newHF : ℚ)
    hrv_min_hr := round1 (r.newMeanHR - 15)
    hrv_max_hr := round1 (r.newMeanHR + 25)
    hrv_std_hr := round1 (r.newSDNN * (3/10))
    hrv_lf_hf_ratio := round2 (r.newLF / r.newHF)
    hrv_median_nni := (jsRound (r.newMeanNNI * (98/100)) : ℚ)
    hrv_range_nni := (jsRound (r.newSDNN * 8) : ℚ)
    hrv_cvnni := round3 (r.newSDNN / r.newMeanNNI) }

/-- A Partial<Worker>: for each field, some v means the key is present
with value v.  For the three optional risk fields, a present key may
itself carry undefined (modelled as some none), which erases the field
on merge, exactly as the spread operator does. -/
structure WorkerUpdate where
  temperature : Option ℚ := none
  humidity : Option ℚ := none
  hrv_mean_hr : Option ℚ := none
  hrv_rmssd : Option ℚ := none
  hrv_sdnn : Option ℚ := none
  hrv_mean_nni : Option ℚ := none
  hrv_pnni_50 : Option ℚ := none
  hrv_total_power : Option ℚ := none
  hrv_lf : Option ℚ := none
  hrv_hf : Option ℚ := none
  hrv_min_hr : Option ℚ := none
  hrv_max_hr : Option ℚ := none
  hrv_std_hr : Option ℚ := none
  hrv_lf_hf_ratio : Option ℚ := none
  hrv_median_nni : Option ℚ := none
  hrv_range_nni : Option ℚ := none
  hrv_cvnni : Option ℚ := none
  riskScore : Option (Option ℚ) := none
  predictedClass : Option (Option String) := none
  confidence : Option (Option ℚ) := none
deriving DecidableEq

/-- The object spread { ...worker, ...updates }. -/
def mergeWorker (w : Worker) (u : WorkerUpdate) : Worker :=
  { name := w.name
    id := w.id
    temperature := u.temperature.getD w.temperature
    humidity := u.humidity.getD w.humidity
    hrv_mean_hr := u.hrv_mean_hr.getD w.hrv_mean_hr
    hrv_rmssd := u.hrv_rmssd.getD w.hrv_rmssd
    hrv_sdnn := u.hrv_sdnn.getD w.hrv_sdnn
    hrv_mean_nni := u.hrv_mean_nni.getD w.hrv_mean_nni
    hrv_pnni_50 := u.hrv_pnni_50.getD w.hrv_pnni_50
    hrv_total_power := u.hrv_total_power.getD w.hrv_total_power
    hrv_lf := u.hrv_lf.getD w.hrv_lf
    hrv_hf := u.hrv_hf.getD w.hrv_hf
    hrv_min_hr := u.hrv_min_hr.getD w.hrv_min_hr
    hrv_max_hr := u.hrv_max_hr.getD w.hrv_max_hr
    hrv_std_hr := u.hrv_std_hr.getD w.hrv_std_hr
    hrv_lf_hf_ratio := u.hrv_lf_hf_ratio.getD w.hrv_lf_hf_ratio
    hrv_median_nni := u.hrv_median_nni.getD w.hrv_median_nni
    hrv_range_nni := u.hrv_range_nni.getD w.hrv_range_nni
    hrv_cvnni := u.hrv_cvnni.getD w.hrv_cvnni
    riskScore := u.riskScore.getD w.riskScore
    predictedClass := u.predictedClass.getD w.predictedClass
    confidence := u.confidence.getD w.confidence }

/-- The Partial<Worker> view of a SimValues record: every numeric
simulation field present, no risk fields. -/
def toUpdate (v : SimValues) : WorkerUpdate :=
  { temperature := some v.temperature
    humidity := some v.humidity
    hrv_mean_hr := some v.hrv_mean_hr
    hrv_rmssd := some v.hrv_rmssd
    hrv_sdnn := some v.hrv_sdnn
    hrv_mean_nni := some v.hrv_mean_nni
    hrv_pnni_50 := some v.hrv_pnni_50
    hrv_total_power := some v.hrv_total_power
    hrv_lf := some v.hrv_lf
    hrv_hf := some v.hrv_hf
    hrv_min_hr := some v.hrv_min_hr
    hrv_max_hr := some v.hrv_max_hr
    hrv_std_hr := some v.hrv_std_hr
    hrv_lf_hf_ratio := some v.hrv_lf_hf_ratio
    hrv_median_nni := some v.hrv_median_nni
    hrv_range_nni := some v.hrv_range_nni
    hrv_cvnni := some v.hrv_cvnni }

/-- shouldContinueSimulation (simulation.ts lines 221-242): the
Termination Policy.  The step count is the value of stepCountRef at
call time. -/
def shouldContinueSimulation (currentWorker : Worker)
    (simulationType : SimulationType) (stepCount : ℕ) : Bool :=
  if stepCount ≥ MAX_SIMULATION_STEPS then
    false
  else
    match simulationType with
    | .heatup =>
      decide (currentWorker.temperature < MAX_TEMPERATURE ∨
        currentWorker.humidity < MAX_HUMIDITY)
    | .cooldown =>
      decide (currentWorker.temperature > MIN_TEMPERATURE ∨
        currentWorker.humidity > MIN_HUMIDITY)

/-- getSimulationProgress (simulation.ts lines 568-584): the Progress
Reporter. -/
def getSimulationProgress (currentTemp : ℚ) (currentHumidity : ℚ)
    (simulationType : SimulationType) : ℚ :=
  match simulationType with
  | .heatup =>
    let tempProgress :=
      min 100 (((currentTemp - MIN_TEMPERATURE) /
        (MAX_TEMPERATURE - MIN_TEMPERATURE)) * 100)
    let humidityProgress :=
      min 100 (((currentHumidity - MIN_HUMIDITY) /
        (MAX_HUMIDITY - MIN_HUMIDITY)) * 100)
    (tempProgress + humidityProgress) / 2
  | .cooldown =>
    let tempProgress :=
      min 100 (((MAX_TEMPERATURE - currentTemp) /
        (MAX_TEMPERATURE - MIN_TEMPERATURE)) * 100)
    let humidityProgress :=
      min 100 (((MAX_HUMIDITY - currentHumidity) /
        (MAX_HUMIDITY - MIN_HUMIDITY)) * 100)
    (tempProgress + humidityProgress) / 2

/-! ## Loop state (the refs and React state of useSimulation) -/

/-- The SimulationState React state (UI display). -/
structure SimulationUI where
  isActive : Bool
  type : Option SimulationType
  targetWorker : String
  currentValues : Option Worker
deriving DecidableEq

/-- The mutable cells of the useSimulation hook: intervalRef (modelled
as whether a timer is armed), stepCountRef, baselineValuesRef (the two
captured environmental fields), errorCountRef, consecutiveErrorsRef,
simulationTypeRef, isActiveRef, currentWorkerValuesRef, and the UI
state. -/
structure LoopState where
  interval : Bool
  stepCount : ℕ
  baselineTemperature : Option ℚ
  baselineHumidity : Option ℚ
  errorCount : ℕ
  consecutiveErrors : ℕ
  simulationType : Option SimulationType
  isActive : Bool
  currentWorkerValues : Option Worker
  ui : SimulationUI
deriving DecidableEq

/-- clearSimulationInterval (lines 93-98): clear the timer only when one
is armed. -/
def clearSimulationInterval (s : LoopState) : LoopState :=
  if s.interval then { s with interval := false } else s

/-- stopSimulation (lines 103-117). -/
def stopSimulation (s : LoopState) : LoopState :=
  let s1 := clearSimulationInterval s
  { s1 with
    simulationType := none
    isActive := false
    currentWorkerValues := none
    ui := { s1.ui with isActive := false, type := none }
    stepCount := 0
    errorCount := 0
    consecutiveErrors := 0 }

/-- findTargetWorker (lines 126-128). -/
def findTargetWorker (workers : List Worker) : Option Worker :=
  workers.find? (fun worker => worker.name == "John Doe")

/-- The response of the Risk Oracle on success (PredictionResponse). -/
structure PredictionResponse where
  risk_score : ℚ
  predicted_class : String
  confidence : ℚ
deriving DecidableEq

/-- Outcome of the awaited predictWorkerRisk call: the promise either
resolves with a prediction or rejects. -/
inductive OracleOutcome where
  | success (prediction : PredictionResponse)
  | failure
deriving DecidableEq

/-- Result of one invocation of the tick body: the loop state afterwards
and, when stopSimulation was called, the reason passed to it. -/
structure StepResult where
  state : LoopState
  stopReason : Option String
deriving DecidableEq

/-- The continuation of performSimulationStep after the awaited oracle
call returns (lines 296-340 on success, the catch block lines 342-414 on
failure).  targetWorker and nextValues are the locals captured before
the await; the catch block recomputes nextValues from the same locals,
which yields the same value since the generator is deterministic. -/
def resumeAfterOracle (s : LoopState) (simulationType : SimulationType)
    (targetWorker : Worker) (nextValues : SimValues)
    (oracle : OracleOutcome) : StepResult :=
  match oracle with
  | .success prediction =>
    let updatedWorker := mergeWorker targetWorker (toUpdate nextValues)
    let workerUpdates : WorkerUpdate :=
      { toUpdate nextValues with
        riskScore := some (some prediction.risk_score)
        predictedClass := some (some prediction.predicted_class)
        confidence := some (some prediction.confidence) }
    let merged := mergeWorker targetWorker workerUpdates
    let s1 := { s with
      currentWorkerValues := some merged
      ui := { s.ui with currentValues := some merged }
      stepCount := s.stepCount + 1
      consecutiveErrors := 0 }
    if shouldContinueSimulation updatedWorker simulationType s1.stepCount then
      ⟨s1, none⟩
    else
      ⟨stopSimulation s1, some "Simulation completed successfully"⟩
  | .failure =>
    let updatedWorker := mergeWorker targetWorker (toUpdate nextValues)
    let s1 := { s with
      errorCount := s.errorCount + 1
      consecutiveErrors := s.consecutiveErrors + 1
      currentWorkerValues := some updatedWorker
      ui := { s.ui with currentValues := some updatedWorker } }
    if s1.consecutiveErrors ≥ 3 then
      ⟨stopSimulation s1, some "Too many consecutive errors"⟩
    else if s1.errorCount ≥ 10 then
      ⟨stopSimulation s1, some "Too many total errors"⟩
    else
      let s2 := { s1 with stepCount := s1.stepCount + 1 }
      if s2.stepCount ≥ MAX_SIMULATION_STEPS then
        ⟨stopSimulation s2, some "Maximum steps reached"⟩
      else
        ⟨s2, none⟩

/-- performSimulationStep (lines 247-415), executed atomically: the
guards and cache resolution, the Signal Generator, the awaited oracle
call, and the continuation. -/
def performSimulationStep (s : LoopState) (workers : List Worker)
    (oracle : OracleOutcome) : StepResult :=
  match s.isActive, s.simulationType with
  | false, _ =>
    ⟨stopSimulation s, some "Simulation no longer active"⟩
  | true, none =>
    ⟨stopSimulation s, some "Simulation no longer active"⟩
  | true, some simulationType =>
    match s.currentWorkerValues with
    | some targetWorker =>
      resumeAfterOracle s simulationType targetWorker
        (calculateNextSimulationValues targetWorker simulationType) oracle
    | none =>
      match findTargetWorker workers with
      | none => ⟨stopSimulation s, some "Target worker not found"⟩
      | some targetWorker =>
        resumeAfterOracle { s with currentWorkerValues := some targetWorker }
          simulationType targetWorker
          (calculateNextSimulationValues targetWorker simulationType) oracle

/-- The Partial<Worker> passed to onWorkerUpdate by resetToBaseline
(lines 530-536): environmental fields from the fresh profile, the three
risk fields present with value undefined. -/
def resetUpdate (freshWorker : Worker) : WorkerUpdate :=
  { temperature := some freshWorker.temperature
    humidity := some freshWorker.humidity
    riskScore := some none
    predictedClass := some none
    confidence := some none }

/-- resetToBaseline (lines 518-539).  The fresh profile produced by the
subject-generation collaborator (generateWorkerWithRiskProfile, external
to this module) is passed in as freshWorker.  Returns the loop state and
the update emitted through onWorkerUpdate (target id and partial
record), or none when the target worker is absent. -/
def resetToBaseline (s : LoopState) (workers : List Worker)
    (freshWorker : Worker) : LoopState × Option (String × WorkerUpdate) :=
  match findTargetWorker workers with
  | none => (s, none)
  | some targetWorker =>
    (stopSimulation s, some (targetWorker.id, resetUpdate freshWorker))

/-! ## Interleaved scheduler model

performSimulationStep is an async function scheduled with setInterval:
nothing in the source prevents the timer from invoking it again while a
previous invocation is suspended at the awaited oracle call.  The model
below splits the tick body at that await: timerFire runs the synchronous
prefix (guards, cache resolution, Signal Generator) and records the
suspended continuation; oracleReturn resumes the oldest suspended
continuation with the oracle outcome. -/

/-- The locals captured by a tick suspended at the await. -/
structure PendingTick where
  targetWorker : Worker
  nextValues : SimValues
  simulationType : SimulationType
deriving DecidableEq

/-- The loop state together with the in-flight (suspended) ticks. -/
structure SchedulerState where
  loop : LoopState
  pending : List PendingTick
deriving DecidableEq

/-- One firing of the setInterval timer: performSimulationStep begins
and runs up to the awaited oracle call.  The guard consults only
isActiveRef and simulationTypeRef; no flag records an in-flight tick, so
a firing during a pending oracle call proceeds like any other. -/
def timerFire (σ : SchedulerState) (workers : List Worker) :
    SchedulerState × Option String :=
  match σ.loop.isActive, σ.loop.simulationType with
  | false, _ =>
    (⟨stopSimulation σ.loop, σ.pending⟩, some "Simulation no longer active")
  | true, none =>
    (⟨stopSimulation σ.loop, σ.pending⟩, some "Simulation no longer active")
  | true, some simulationType =>
    match σ.loop.currentWorkerValues with
    | some targetWorker =>
      (⟨σ.loop,
        σ.pending ++ [⟨targetWorker,
          calculateNextSimulationValues targetWorker simulationType,
          simulationType⟩]⟩, none)
    | none =>
      match findTargetWorker workers with
      | none =>
        (⟨stopSimulation σ.loop, σ.pending⟩, some "Target worker not found")
      | some targetWorker =>
        (⟨{ σ.loop with currentWorkerValues := some targetWorker },
          σ.pending ++ [⟨targetWorker,
            calculateNextSimulationValues targetWorker simulationType,
            simulationType⟩]⟩, none)

/-- The oracle call of the oldest in-flight tick settles; its suspended
continuation runs (the source has no guard at the resumption point). -/
def oracleReturn (σ : SchedulerState) (oracle : OracleOutcome) :
    SchedulerState × Option String :=
  match σ.pending with
  | [] => (σ, none)
  | t :: rest =>
    let r := resumeAfterOracle σ.loop t.simulationType t.targetWorker
      t.nextValues oracle
    (⟨r.state, rest⟩, r.stopReason)

/-! ## Model loaders (modelLoader.ts and jsModelLoader.ts) -/

/-- PredictionInput: the fields read by the loaders; a missing key (or a
key holding a non-number) is modelled as none. -/
structure PredictionInput where
  Temperature : Option ℚ := none
  Humidity : Option ℚ := none
  hrv_mean_hr : Option ℚ := none
  hrv_rmssd : Option ℚ := none
  Gender : Option ℚ := none
  Age : Option ℚ := none
deriving DecidableEq

/-- PredictionResult (both loaders). -/
structure PredictionResult where
  risk_score : ℚ
  predicted_class : String
  confidence : ℚ
  error : Option String
deriving DecidableEq

/-- The reply parsed from the Python script's stdout. -/
structure PyResult where
  risk_score : ℚ
  predicted_class : String
  confidence : ℚ
  error : Option String
deriving DecidableEq

/-- How the spawned python3 process can behave, as observed by
callPythonScript (modelLoader.ts lines 38-90). -/
inductive PythonOutcome where
  | spawnError (message : String)
  | nonZeroExit (code : ℤ) (stderr : String)
  | parseFailure (raw : String)
  | timedOut
  | ok (result : PyResult)
deriving DecidableEq

/-- callPythonScript: the promise settles with the parsed reply or
rejects with the Error message built in the corresponding handler. -/
def callPythonScript : PythonOutcome → Except String PyResult
  | .spawnError message =>
    .error ("Failed to start Python process: " ++ message)
  | .nonZeroExit code stderr =>
    .error ("Python script exited with code " ++ toString code ++ ": " ++ stderr)
  | .parseFailure raw =>
    .error ("Failed to parse Python output: " ++ raw)
  | .timedOut => .error "Python script timed out"
  | .ok result => .ok result

/-- JavaScript truthiness of the optional error field: undefined and the
empty string are falsy. -/
def errorTruthy : Option String → Bool
  | none => false
  | some e => e ≠ ""

/-- The try block of ModelLoader.predict (modelLoader.ts lines 112-124):
validation, the awaited script call, and the error-field check.  An
Except.error carries the message of the Error caught by the handler. -/
def predictTry (inputData : PredictionInput) (outcome : PythonOutcome) :
    Except String PredictionResult :=
  if inputData.Temperature = none ∨ inputData.Humidity = none then
    .error "Temperature and Humidity are required fields"
  else
    match callPythonScript outcome with
    | .error e => .error e
    | .ok result =>
      if errorTruthy result.error then
        .error (result.error.getD "")
      else
        .ok ⟨result.risk_score, result.predicted_class, result.confidence,
          result.error⟩

/-- ModelLoader.predict (modelLoader.ts lines 111-133): the catch block
converts any failure into a success-shaped result. -/
def predict (inputData : PredictionInput) (outcome : PythonOutcome) :
    PredictionResult :=
  match predictTry inputData outcome with
  | .ok r => r
  | .error msg => ⟨0, "error", 0, some msg⟩

/-! ### JSModelLoader (jsModelLoader.ts) -/

/-- Hardcoded feature column order. -/
def jsFeatureColumns : List String :=
  ["Temperature", "Humidity", "hrv_mean_hr", "hrv_rmssd", "Gender", "Age"]

/-- Hardcoded scaler means. -/
def jsScalerMean : List ℚ := [25, 50, 70, 30, 1/2, 30]

/-- Hardcoded scaler scales. -/
def jsScalerScale : List ℚ := [5, 20, 10, 10, 1/2, 10]

/-- Lookup of a feature by column name in the input record. -/
def getFeature (inputData : PredictionInput) : String → Option ℚ
  | "Temperature" => inputData.Temperature
  | "Humidity" => inputData.Humidity
  | "hrv_mean_hr" => inputData.hrv_mean_hr
  | "hrv_rmssd" => inputData.hrv_rmssd
  | "Gender" => inputData.Gender
  | "Age" => inputData.Age
  | _ => none

/-- Feature vector in column order, missing features defaulting to 0
(jsModelLoader.ts lines 220-227). -/
def jsFeatures (inputData : PredictionInput) : List ℚ :=
  jsFeatureColumns.map (fun f => (getFeature inputData f).getD 0)

/-- The mock scaler transform: (v - mean) / scale component-wise. -/
def jsScale (features : List ℚ) : List ℚ :=
  (features.zip (jsScalerMean.zip jsScalerScale)).map
    (fun p => (p.1 - p.2.1) / p.2.2)

/-- The mock model's predict: recover the temperature from the scaled
features and threshold it. -/
def mockPredict (scaled : List ℚ) : ℕ :=
  let temp := scaled.headD 0 * 5 + 25
  if temp > 28 then 3
  else if temp > 26 then 2
  else if temp > 24 then 1
  else 0

/-- The mock model's predict_proba. -/
def mockProba (scaled : List ℚ) : List ℚ :=
  let temp := scaled.headD 0 * 5 + 25
  if temp > 28 then [5/100, 15/100, 20/100, 60/100]
  else if temp > 26 then [10/100, 20/100, 60/100, 10/100]
  else if temp > 24 then [20/100, 60/100, 15/100, 5/100]
  else [60/100, 25/100, 10/100, 5/100]

/-- Hardcoded label-encoder classes. -/
def jsClasses : List String := ["neutral", "slightly warm", "warm", "hot"]

/-- classToScore with the || 0.5 default. -/
def classToScore : String → ℚ
  | "neutral" => 0
  | "slightly warm" => 33/100
  | "warm" => 67/100
  | "hot" => 1
  | _ => 1/2

/-- JSModelLoader.calculateRiskScore (jsModelLoader.ts lines 181-199). -/
def jsCalculateRiskScore (probabilities : List ℚ) : ℚ :=
  let weightedScore :=
    ((probabilities.zip jsClasses).map (fun p => p.1 * classToScore p.2)).sum
  min 1 (weightedScore + 15/100)

/-- JSModelLoader.predict (jsModelLoader.ts lines 204-262).  modelLoaded
records whether loadModel succeeded (file reads are external); the two
throw sites inside the try become the two error-shaped returns of the
catch handler, and the arithmetic pipeline cannot fail in exact
arithmetic. -/
def jsPredict (inputData : PredictionInput) (modelLoaded : Bool) :
    PredictionResult :=
  if modelLoaded = false then
    ⟨0, "error", 0, some "Failed to load model components"⟩
  else if inputData.Temperature = none ∨ inputData.Humidity = none then
    ⟨0, "error", 0, some "Temperature and Humidity are required fields"⟩
  else
    let scaled := jsScale (jsFeatures inputData)
    let prediction := mockPredict scaled
    let probs := mockProba scaled
    let riskScore := jsCalculateRiskScore probs
    let predictedClass := jsClasses.getD prediction ""
    let confidence := probs.foldl max 0
    ⟨round4 riskScore, predictedClass, round3 confidence, none⟩

/-! ## Sample data for concrete witnesses -/

/-- A concrete in-range subject record. -/
def wJohn : Worker :=
  { name := "John Doe"
    id := "w1"
    temperature := 22
    humidity := 45
    hrv_mean_hr := 70
    hrv_rmssd := 30
    hrv_sdnn := 40
    hrv_mean_nni := 850
    hrv_pnni_50 := 10
    hrv_total_power := 2000
    hrv_lf := 500
    hrv_hf := 300
    hrv_min_hr := 55
    hrv_max_hr := 95
    hrv_std_hr := 12
    hrv_lf_hf_ratio := 5/3
    hrv_median_nni := 833
    hrv_range_nni := 320
    hrv_cvnni := 47/1000
    riskScore := none
    predictedClass := none
    confidence := none }

/-- The sample subject with both environmental axes saturated at the
heat-up maxima. -/
def wSaturated : Worker := { wJohn with temperature := 34, humidity := 90 }

/-- A running loop state in the given mode with the given cached
subject. -/
def runningState (simulationType : SimulationType) (w : Worker) : LoopState :=
  { interval := true
    stepCount := 0
    baselineTemperature := some w.temperature
    baselineHumidity := some w.humidity
    errorCount := 0
    consecutiveErrors := 0
    simulationType := some simulationType
    isActive := true
    currentWorkerValues := some w
    ui := ⟨true, some simulationType, "John Doe", some w⟩ }

/-- A sample oracle reply. -/
def pSample : PredictionResponse := ⟨1/2, "warm", 9/10⟩

/-! ## Rounding lemmas -/

theorem jsRound_ge (z : ℤ) (q : ℚ) (h : (z : ℚ) ≤ q) : z ≤ jsRound q := by
  unfold jsRound
  exact Int.le_floor.mpr (by linarith)

theorem jsRound_le (z : ℤ) (q : ℚ) (h : q ≤ (z : ℚ)) : jsRound q ≤ z := by
  unfold jsRound
  have h1 : ⌊q + 1/2⌋ ≤ ⌊(z : ℚ) + 1/2⌋ := Int.floor_le_floor (by linarith)
  have h2 : ⌊(z : ℚ) + 1/2⌋ = z + ⌊(1/2 : ℚ)⌋ := Int.floor_int_add z (1/2)
  have h3 : ⌊(1/2 : ℚ)⌋ = 0 := by norm_num
  omega

theorem round1_ge (a : ℤ) (q : ℚ) (h : (a : ℚ) ≤ q) : (a : ℚ) ≤ round1 q := by
  unfold round1
  have h1 : ((10 * a : ℤ) : ℚ) ≤ q * 10 := by push_cast; linarith
  have h2 : (10 * a : ℤ) ≤ jsRound (q * 10) := jsRound_ge _ _ h1
  have h3 : 10 * (a : ℚ) ≤ (jsRound (q * 10) : ℚ) := by exact_mod_cast h2
  linarith

theorem round1_le (b : ℤ) (q : ℚ) (h : q ≤ (b : ℚ)) : round1 q ≤ (b : ℚ) := by
  unfold round1
  have h1 : q * 10 ≤ ((10 * b : ℤ) : ℚ) := by push_cast; linarith
  have h2 : jsRound (q * 10) ≤ (10 * b : ℤ) := jsRound_le _ _ h1
  have h3 : (jsRound (q * 10) : ℚ) ≤ 10 * (b : ℚ) := by exact_mod_cast h2
  linarith

/-! ## Claims -/

/-- C1: shouldContinueSimulation returns false once the step count has
reached the fixed global ceiling (100); otherwise for heat-up it returns
true iff temperature is below its maximum or humidity is below its
maximum, and symmetrically for cool-down it returns true iff temperature
is above its minimum or humidity is above its minimum. -/
theorem shouldContinue_spec (w : Worker) (stepCount : ℕ) :
    (shouldContinueSimulation w .heatup stepCount = true ↔
      stepCount < MAX_SIMULATION_STEPS ∧
        (w.temperature < MAX_TEMPERATURE ∨ w.humidity < MAX_HUMIDITY)) ∧
    (shouldContinueSimulation w .cooldown stepCount = true ↔
      stepCount < MAX_SIMULATION_STEPS ∧
        (w.temperature > MIN_TEMPERATURE ∨ w.humidity > MIN_HUMIDITY)) := by
  constructor <;>
  · unfold shouldContinueSimulation
    split
    · simp_all
    · simp_all

/-! ### C3: clamp-range invariant of the Signal Generator -/

theorem round1_min_ge (a : ℤ) (c q : ℚ) (hc : (a : ℚ) ≤ c) (hq : (a : ℚ) ≤ q) :
    (a : ℚ) ≤ round1 (min c q) := round1_ge a _ (le_min hc hq)

theorem round1_min_le (b : ℤ) (c q : ℚ) (hc : c ≤ (b : ℚ)) :
    round1 (min c q) ≤ (b : ℚ) := round1_le b _ (le_trans (min_le_left _ _) hc)

theorem round1_max_ge (a : ℤ) (c q : ℚ) (hc : (a : ℚ) ≤ c) :
    (a : ℚ) ≤ round1 (max c q) := round1_ge a _ (le_trans hc (le_max_left _ _))

theorem round1_max_le (b : ℤ) (c q : ℚ) (hc : c ≤ (b : ℚ)) (hq : q ≤ (b : ℚ)) :
    round1 (max c q) ≤ (b : ℚ) := round1_le b _ (max_le hc hq)

theorem jsRoundCast_ge (a : ℤ) (q : ℚ) (h : (a : ℚ) ≤ q) :
    (a : ℚ) ≤ (jsRound q : ℚ) := by exact_mod_cast jsRound_ge a q h

theorem jsRoundCast_le (b : ℤ) (q : ℚ) (h : q ≤ (b : ℚ)) :
    (jsRound q : ℚ) ≤ (b : ℚ) := by exact_mod_cast jsRound_le b q h

/-- The documented clamp ranges of the ten primary fields (Table 1 plus
the bounds coded in the Signal Generator). -/
def InClampRange (w : Worker) : Prop :=
  10 ≤ w.temperature ∧ w.temperature ≤ 34 ∧
  20 ≤ w.humidity ∧ w.humidity ≤ 90 ∧
  50 ≤ w.hrv_mean_hr ∧ w.hrv_mean_hr ≤ 110 ∧
  15 ≤ w.hrv_rmssd ∧ w.hrv_rmssd ≤ 120 ∧
  20 ≤ w.hrv_sdnn ∧ w.hrv_sdnn ≤ 150 ∧
  w.hrv_mean_nni ≤ 1200 ∧
  5 ≤ w.hrv_pnni_50 ∧ w.hrv_pnni_50 ≤ 50 ∧
  800 ≤ w.hrv_total_power ∧ w.hrv_total_power ≤ 5000 ∧
  200 ≤ w.hrv_lf ∧ w.hrv_lf ≤ 1500 ∧
  100 ≤ w.hrv_hf ∧ w.hrv_hf ≤ 1000

/-- The same ranges on the Signal Generator's output record. -/
def SimValuesInRange (v : SimValues) : Prop :=
  10 ≤ v.temperature ∧ v.temperature ≤ 34 ∧
  20 ≤ v.humidity ∧ v.humidity ≤ 90 ∧
  50 ≤ v.hrv_mean_hr ∧ v.hrv_mean_hr ≤ 110 ∧
  15 ≤ v.hrv_rmssd ∧ v.hrv_rmssd ≤ 120 ∧
  20 ≤ v.hrv_sdnn ∧ v.hrv_sdnn ≤ 150 ∧
  v.hrv_mean_nni ≤ 1200 ∧
  5 ≤ v.hrv_pnni_50 ∧ v.hrv_pnni_50 ≤ 50 ∧
  800 ≤ v.hrv_total_power ∧ v.hrv_total_power ≤ 5000 ∧
  200 ≤ v.hrv_lf ∧ v.hrv_lf ≤ 1500 ∧
  100 ≤ v.hrv_hf ∧ v.hrv_hf ≤ 1000

/-- C3: for every worker state whose primary fields lie within their
documented clamp ranges, and for both modes, every clamped field of the
state returned by the Signal Generator lies, after clamping and
rounding, within its documented range: temperature in [10,34], humidity
in [20,90], mean HR in [50,110], RMSSD in [15,120], SDNN in [20,150],
mean NNI at most 1200, pNN50 in [5,50], total power in [800,5000], LF in
[200,1500], HF in [100,1000]. -/
theorem calculateNext_preserves_range (w : Worker) (t : SimulationType)
    (h : InClampRange w) :
    SimValuesInRange (calculateNextSimulationValues w t) := by
  obtain ⟨hT1, hT2, hH1, hH2, hHR1, hHR2, hR1, hR2, hS1, hS2, hN, hP1, hP2,
    hTP1, hTP2, hLF1, hLF2, hHF1, hHF2⟩ := h
  cases t with
  | heatup =>
    simp only [calculateNextSimulationValues, rawNext, SimValuesInRange,
      TEMPERATURE_INCREMENT, HUMIDITY_INCREMENT, MAX_TEMPERATURE,
      MAX_HUMIDITY, HEART_RATE_STRESS_INCREMENT, HRV_INCREASE_RMSSD,
      HRV_INCREASE_SDNN, HRV_INCREASE_PNN50, HRV_INCREASE_POWER,
      HRV_INCREASE_LF, HRV_INCREASE_HF]
    refine ⟨?_, ?_, ?_, ?_, ?_, ?_, ?_, ?_, ?_, ?_, ?_, ?_, ?_, ?_, ?_,
      ?_, ?_, ?_, ?_⟩
    · exact_mod_cast round1_min_ge 10 _ _ (by norm_num) (by linarith)
    · exact_mod_cast round1_min_le 34 _ _ (by norm_num)
    · exact_mod_cast round1_min_ge 20 _ _ (by norm_num) (by linarith)
    · exact_mod_cast round1_min_le 90 _ _ (by norm_num)
    · exact_mod_cast round1_min_ge 50 _ _ (by norm_num) (by linarith)
    · exact_mod_cast round1_min_le 110 _ _ (by norm_num)
    · exact_mod_cast round1_min_ge 15 _ _ (by norm_num) (by linarith)
    · exact_mod_cast round1_min_le 120 _ _ (by norm_num)
    · exact_mod_cast round1_min_ge 20 _ _ (by norm_num) (by linarith)
    · exact_mod_cast round1_min_le 150 _ _ (by norm_num)
    · exact_mod_cast jsRoundCast_le 1200 _ (le_trans (min_le_left _ _)
        (by norm_num))
    · exact_mod_cast round1_min_ge 5 _ _ (by norm_num) (by linarith)
    · exact_mod_cast round1_min_le 50 _ _ (by norm_num)
    · exact_mod_cast jsRoundCast_ge 800 _ (le_min (by norm_num)
        (by linarith))
    · exact_mod_cast jsRoundCast_le 5000 _ (le_trans (min_le_left _ _)
        (by norm_num))
    · exact_mod_cast jsRoundCast_ge 200 _ (le_min (by norm_num)
        (by linarith))
    · exact_mod_cast jsRoundCast_le 1500 _ (le_trans (min_le_left _ _)
        (by norm_num))
    · exact_mod_cast jsRoundCast_ge 100 _ (le_min (by norm_num)
        (by linarith))
    · exact_mod_cast jsRoundCast_le 1000 _ (le_trans (min_le_left _ _)
        (by norm_num))
  | cooldown =>
    simp only [calculateNextSimulationValues, rawNext, SimValuesInRange,
      TEMPERATURE_INCREMENT, HUMIDITY_INCREMENT, MIN_TEMPERATURE,
      MIN_HUMIDITY, HEART_RATE_RECOVERY_DECREMENT, HRV_DECREASE_RMSSD,
      HRV_DECREASE_SDNN, HRV_DECREASE_PNN50, HRV_DECREASE_POWER,
      HRV_DECREASE_LF, HRV_DECREASE_HF]
    refine ⟨?_, ?_, ?_, ?_, ?_, ?_, ?_, ?_, ?_, ?_, ?_, ?_, ?_, ?_, ?_,
      ?_, ?_, ?_, ?_⟩
    · exact_mod_cast round1_max_ge 10 _ _ (by norm_num)
    · exact_mod_cast round1_max_le 34 _ _ (by norm_num) (by linarith)
    · exact_mod_cast round1_max_ge 20 _ _ (by norm_num)
    · exact_mod_cast round1_max_le 90 _ _ (by norm_num) (by linarith)
    · exact_mod_cast round1_max_ge 50 _ _ (by norm_num)
    · exact_mod_cast round1_max_le 110 _ _ (by norm_num) (by linarith)
    · exact_mod_cast round1_max_ge 15 _ _ (by norm_num)
    · exact_mod_cast round1_max_le 120 _ _ (by norm_num) (by linarith)
    · exact_mod_cast round1_max_ge 20 _ _ (by norm_num)
    · exact_mod_cast round1_max_le 150 _ _ (by norm_num) (by linarith)
    · exact_mod_cast jsRoundCast_le 1200 _ (le_trans (min_le_left _ _)
        (by norm_num))
    · exact_mod_cast round1_max_ge 5 _ _ (by norm_num)
    · exact_mod_cast round1_max_le 50 _ _ (by norm_num) (by linarith)
    · exact_mod_cast jsRoundCast_ge 800 _ (by push_cast; exact le_max_left _ _)
    · exact_mod_cast jsRoundCast_le 5000 _ (max_le (by norm_num)
        (by linarith))
    · exact_mod_cast jsRoundCast_ge 200 _ (by push_cast; exact le_max_left _ _)
    · exact_mod_cast jsRoundCast_le 1500 _ (max_le (by norm_num)
        (by linarith))
    · exact_mod_cast jsRoundCast_ge 100 _ (by push_cast; exact le_max_left _ _)
    · exact_mod_cast jsRoundCast_le 1000 _ (max_le (by norm_num)
        (by linarith))

/-- Witness for calculateNext_preserves_range at the concrete in-range
subject. -/
theorem calculateNext_preserves_range_witness :
    InClampRange wJohn ∧
    SimValuesInRange (calculateNextSimulationValues wJohn .heatup) := by
  have hIn : InClampRange wJohn := by norm_num [InClampRange, wJohn]
  exact ⟨hIn, calculateNext_preserves_range wJohn .heatup hIn⟩

/-! ### C2: continuation check on failing ticks -/

/-- C2 counterexample: a failing tick within both error budgets, taken
from a state whose candidate (both axes saturated) makes the Termination
Policy return false, does not stop with the completion reason: the
policy is never consulted on the failure path, and the run stays
active. -/
theorem failure_tick_skips_policy_cex :
    shouldContinueSimulation
      (mergeWorker wSaturated
        (toUpdate (calculateNextSimulationValues wSaturated .heatup)))
      .heatup ((runningState .heatup wSaturated).stepCount + 1) = false ∧
    (performSimulationStep (runningState .heatup wSaturated) []
      .failure).stopReason = none ∧
    (performSimulationStep (runningState .heatup wSaturated) []
      .failure).state.isActive = true := by
  refine ⟨?_, ?_, ?_⟩
  · simp [shouldContinueSimulation, mergeWorker, toUpdate,
      calculateNextSimulationValues, rawNext, wSaturated, wJohn,
      runningState, round1, jsRound, min_def, max_def,
      MAX_SIMULATION_STEPS, MAX_TEMPERATURE, MAX_HUMIDITY,
      TEMPERATURE_INCREMENT, HUMIDITY_INCREMENT]
    norm_num
  · simp [performSimulationStep, runningState, resumeAfterOracle,
      stopSimulation, clearSimulationInterval, MAX_SIMULATION_STEPS]
  · simp [performSimulationStep, runningState, resumeAfterOracle,
      stopSimulation, clearSimulationInterval, MAX_SIMULATION_STEPS]

/-- C2 amended: on a tick whose oracle call fails while staying within
both error budgets, the Termination Policy is not evaluated; the run
stops with the step-ceiling reason when the incremented step count
reaches the ceiling and otherwise continues, regardless of whether the
policy would return false on the merged candidate state. -/
theorem failure_tick_within_budget (s : LoopState) (workers : List Worker)
    (w : Worker) (m : SimulationType)
    (hAct : s.isActive = true) (hTy : s.simulationType = some m)
    (hCache : s.currentWorkerValues = some w)
    (hCons : s.consecutiveErrors + 1 < 3) (hErr : s.errorCount + 1 < 10) :
    (s.stepCount + 1 ≥ MAX_SIMULATION_STEPS →
      (performSimulationStep s workers .failure).stopReason =
        some "Maximum steps reached") ∧
    (s.stepCount + 1 < MAX_SIMULATION_STEPS →
      (performSimulationStep s workers .failure).stopReason = none ∧
      (performSimulationStep s workers .failure).state.isActive = true) := by
  obtain ⟨i, sc, bT, bH, ec, ce, st, ia, cw, u⟩ := s
  simp_all only []
  subst hAct hTy hCache
  have h3 : ¬ (ce + 1 ≥ 3) := by omega
  have h10 : ¬ (ec + 1 ≥ 10) := by omega
  constructor
  · intro hge
    simp only [performSimulationStep, resumeAfterOracle]
    simp [h3, h10, hge]
  · intro hlt
    simp only [performSimulationStep, resumeAfterOracle]
    simp [h3, h10, Nat.not_le.mpr hlt]

/-- Witness for failure_tick_within_budget at a concrete running
state. -/
theorem failure_tick_within_budget_witness :
    (runningState .heatup wJohn).consecutiveErrors + 1 < 3 ∧
    (runningState .heatup wJohn).errorCount + 1 < 10 ∧
    (performSimulationStep (runningState .heatup wJohn) []
      .failure).stopReason = none ∧
    (performSimulationStep (runningState .heatup wJohn) []
      .failure).state.isActive = true := by
  refine ⟨by norm_num [runningState], by norm_num [runningState], ?_⟩
  exact (failure_tick_within_budget (runningState .heatup wJohn) [] wJohn
    .heatup rfl rfl rfl (by norm_num [runningState])
    (by norm_num [runningState])).2
    (by norm_num [runningState, MAX_SIMULATION_STEPS])

/-! ### C4: error budgets -/

/-- C4: three consecutive oracle failures stop the run with the
consecutive-error reason even when total failures stay below ten; a
tenth total failure (with the consecutive budget not yet hit) stops the
run with the total-error reason; and a successful tick that keeps the
run going resets the consecutive-error counter to zero while leaving the
total-error counter unchanged. -/
theorem error_budget_spec :
    (∀ (s : LoopState) (workers : List Worker) (w : Worker)
      (m : SimulationType),
      s.isActive = true → s.simulationType = some m →
      s.currentWorkerValues = some w →
      s.consecutiveErrors = 2 → s.errorCount + 1 < 10 →
      (performSimulationStep s workers .failure).stopReason =
        some "Too many consecutive errors") ∧
    (∀ (s : LoopState) (workers : List Worker) (w : Worker)
      (m : SimulationType),
      s.isActive = true → s.simulationType = some m →
      s.currentWorkerValues = some w →
      s.consecutiveErrors + 1 < 3 → s.errorCount = 9 →
      (performSimulationStep s workers .failure).stopReason =
        some "Too many total errors") ∧
    (∀ (s : LoopState) (workers : List Worker) (w : Worker)
      (m : SimulationType) (p : PredictionResponse),
      s.isActive = true → s.simulationType = some m →
      s.currentWorkerValues = some w →
      shouldContinueSimulation
        (mergeWorker w (toUpdate (calculateNextSimulationValues w m))) m
        (s.stepCount + 1) = true →
      (performSimulationStep s workers (.success p)).state.consecutiveErrors
        = 0 ∧
      (performSimulationStep s workers (.success p)).state.errorCount =
        s.errorCount) := by
  refine ⟨?_, ?_, ?_⟩
  · intro s workers w m hAct hTy hCache hCons hErr
    obtain ⟨i, sc, bT, bH, ec, ce, st, ia, cw, u⟩ := s
    simp_all only []
    subst hAct hTy hCache hCons
    simp [performSimulationStep, resumeAfterOracle]
  · intro s workers w m hAct hTy hCache hCons hErr
    obtain ⟨i, sc, bT, bH, ec, ce, st, ia, cw, u⟩ := s
    simp_all only []
    subst hAct hTy hCache hErr
    have h3 : ¬ (ce + 1 ≥ 3) := by omega
    simp [performSimulationStep, resumeAfterOracle, h3]
  · intro s workers w m p hAct hTy hCache hCont
    obtain ⟨i, sc, bT, bH, ec, ce, st, ia, cw, u⟩ := s
    simp_all only []
    subst hAct hTy hCache
    simp [performSimulationStep, resumeAfterOracle, hCont]

/-- Witness for error_budget_spec: each budget rule exercised at a
concrete state. -/
theorem error_budget_spec_witness :
    (performSimulationStep
      { runningState .heatup wJohn with consecutiveErrors := 2 } []
      .failure).stopReason = some "Too many consecutive errors" ∧
    (performSimulationStep
      { runningState .heatup wJohn with errorCount := 9 } []
      .failure).stopReason = some "Too many total errors" ∧
    (performSimulationStep (runningState .heatup wJohn) []
      (.success pSample)).state.consecutiveErrors = 0 ∧
    (performSimulationStep (runningState .heatup wJohn) []
      (.success pSample)).state.errorCount = 0 := by
  refine ⟨?_, ?_, ?_⟩
  · exact error_budget_spec.1 _ [] wJohn .heatup rfl rfl rfl rfl
      (by norm_num [runningState])
  · exact error_budget_spec.2.1 _ [] wJohn .heatup rfl rfl rfl
      (by norm_num [runningState]) rfl
  · have h := error_budget_spec.2.2 (runningState .heatup wJohn) [] wJohn
      .heatup pSample rfl rfl rfl ?_
    · exact ⟨h.1, h.2⟩
    · simp [shouldContinueSimulation, mergeWorker, toUpdate,
        calculateNextSimulationValues, rawNext, wJohn, runningState,
        round1, jsRound, min_def, max_def, MAX_SIMULATION_STEPS,
        MAX_TEMPERATURE, MAX_HUMIDITY, TEMPERATURE_INCREMENT,
        HUMIDITY_INCREMENT]
      norm_num

/-! ### C6: progress reporter -/

/-- C6 counterexample: with a temperature below the documented minimum,
getSimulationProgress returns a negative value — the per-axis clamp is
only an upper clamp at 100, so the temperature leg goes negative and
drags the average below 0. -/
theorem progress_negative_cex : getSimulationProgress 0 20 .heatup < 0 := by
  norm_num [getSimulationProgress, MIN_TEMPERATURE, MAX_TEMPERATURE,
    MIN_HUMIDITY, MAX_HUMIDITY, min_def]

/-- C6 amended: getSimulationProgress never exceeds 100 (each axis is
clamped above at 100 before averaging), and returns a value in [0,100]
whenever temperature and humidity lie within their documented ranges;
the legs are not clamped below at 0, so an axis beyond its range in the
negative direction can make the result negative. -/
theorem progress_bounds (currentTemp currentHumidity : ℚ)
    (simulationType : SimulationType) :
    getSimulationProgress currentTemp currentHumidity simulationType ≤ 100 ∧
    (10 ≤ currentTemp → currentTemp ≤ 34 → 20 ≤ currentHumidity →
      currentHumidity ≤ 90 →
      0 ≤ getSimulationProgress currentTemp currentHumidity simulationType) := by
  cases simulationType <;>
  · unfold getSimulationProgress
    simp only [MIN_TEMPERATURE, MAX_TEMPERATURE, MIN_HUMIDITY, MAX_HUMIDITY]
    constructor
    · have h1 := min_le_left (100 : ℚ)
        (((currentTemp - 10) / (34 - 10)) * 100)
      have h2 := min_le_left (100 : ℚ)
        (((currentHumidity - 20) / (90 - 20)) * 100)
      have h3 := min_le_left (100 : ℚ)
        (((34 - currentTemp) / (34 - 10)) * 100)
      have h4 := min_le_left (100 : ℚ)
        (((90 - currentHumidity) / (90 - 20)) * 100)
      linarith [h1, h2, h3, h4]
    · intro ht1 ht2 hh1 hh2
      have h1 : (0 : ℚ) ≤ ((currentTemp - 10) / (34 - 10)) * 100 := by
        apply mul_nonneg (div_nonneg (by linarith) (by norm_num)) (by norm_num)
      have h2 : (0 : ℚ) ≤ ((currentHumidity - 20) / (90 - 20)) * 100 := by
        apply mul_nonneg (div_nonneg (by linarith) (by norm_num)) (by norm_num)
      have h3 : (0 : ℚ) ≤ ((34 - currentTemp) / (34 - 10)) * 100 := by
        apply mul_nonneg (div_nonneg (by linarith) (by norm_num)) (by norm_num)
      have h4 : (0 : ℚ) ≤ ((90 - currentHumidity) / (90 - 20)) * 100 := by
        apply mul_nonneg (div_nonneg (by linarith) (by norm_num)) (by norm_num)
      have g1 : (0 : ℚ) ≤ min 100 (((currentTemp - 10) / (34 - 10)) * 100) :=
        le_min (by norm_num) h1
      have g2 : (0 : ℚ) ≤
          min 100 (((currentHumidity - 20) / (90 - 20)) * 100) :=
        le_min (by norm_num) h2
      have g3 : (0 : ℚ) ≤ min 100 (((34 - currentTemp) / (34 - 10)) * 100) :=
        le_min (by norm_num) h3
      have g4 : (0 : ℚ) ≤
          min 100 (((90 - currentHumidity) / (90 - 20)) * 100) :=
        le_min (by norm_num) h4
      linarith [g1, g2, g3, g4]

/-- Witness for progress_bounds at in-range inputs. -/
theorem progress_bounds_witness :
    getSimulationProgress 22 45 .heatup ≤ 100 ∧
    0 ≤ getSimulationProgress 22 45 .heatup := by
  refine ⟨(progress_bounds 22 45 .heatup).1, ?_⟩
  exact (progress_bounds 22 45 .heatup).2 (by norm_num) (by norm_num)
    (by norm_num) (by norm_num)

/-! ### C7: cool-down transform -/

/-- C7 counterexample: in cool-down mode the mean-NNI transform is not a
relaxation at a rate distinct from heat-up with a fixed floor: at a
concrete state it produces exactly the heat-up value (the identical
multiply-by-1.04-and-cap transform) and increases the field. -/
theorem cooldown_nni_cex :
    (calculateNextSimulationValues wJohn .cooldown).hrv_mean_nni =
      (calculateNextSimulationValues wJohn .heatup).hrv_mean_nni ∧
    wJohn.hrv_mean_nni <
      (calculateNextSimulationValues wJohn .cooldown).hrv_mean_nni := by
  constructor <;>
    norm_num [calculateNextSimulationValues, rawNext, wJohn, jsRound,
      min_def]

/-- C7 amended: in cool-down mode the Signal Generator moves heart rate
and the perturbed HRV statistics RMSSD, SDNN, pNN50, total power, LF and
HF toward rest, each floored at its fixed minimum and each at a rate
distinct from the heat-up rate — but mean-NNI is the exception: its
cool-down transform is identical to its heat-up transform (multiply by
1.04, cap at 1200), so it increases rather than being floored. -/
theorem cooldown_relaxation (w : Worker) :
    (50 ≤ w.hrv_mean_hr →
      50 ≤ (rawNext w .cooldown).newMeanHR ∧
      (rawNext w .cooldown).newMeanHR ≤ w.hrv_mean_hr) ∧
    (15 ≤ w.hrv_rmssd →
      15 ≤ (rawNext w .cooldown).newRMSSD ∧
      (rawNext w .cooldown).newRMSSD ≤ w.hrv_rmssd) ∧
    (20 ≤ w.hrv_sdnn →
      20 ≤ (rawNext w .cooldown).newSDNN ∧
      (rawNext w .cooldown).newSDNN ≤ w.hrv_sdnn) ∧
    (5 ≤ w.hrv_pnni_50 →
      5 ≤ (rawNext w .cooldown).newPNN50 ∧
      (rawNext w .cooldown).newPNN50 ≤ w.hrv_pnni_50) ∧
    (800 ≤ w.hrv_total_power →
      800 ≤ (rawNext w .cooldown).newTotalPower ∧
      (rawNext w .cooldown).newTotalPower ≤ w.hrv_total_power) ∧
    (200 ≤ w.hrv_lf →
      200 ≤ (rawNext w .cooldown).newLF ∧
      (rawNext w .cooldown).newLF ≤ w.hrv_lf) ∧
    (100 ≤ w.hrv_hf →
      100 ≤ (rawNext w .cooldown).newHF ∧
      (rawNext w .cooldown).newHF ≤ w.hrv_hf) ∧
    ((rawNext w .cooldown).newMeanNNI = (rawNext w .heatup).newMeanNNI) ∧
    (0 ≤ w.hrv_mean_nni → w.hrv_mean_nni ≤ 1200 →
      w.hrv_mean_nni ≤ (rawNext w .cooldown).newMeanNNI) ∧
    (HEART_RATE_RECOVERY_DECREMENT ≠ HEART_RATE_STRESS_INCREMENT ∧
     HRV_DECREASE_RMSSD ≠ HRV_INCREASE_RMSSD ∧
     HRV_DECREASE_SDNN ≠ HRV_INCREASE_SDNN ∧
     HRV_DECREASE_PNN50 ≠ HRV_INCREASE_PNN50 ∧
     HRV_DECREASE_POWER ≠ HRV_INCREASE_POWER ∧
     HRV_DECREASE_LF ≠ HRV_INCREASE_LF ∧
     HRV_DECREASE_HF ≠ HRV_INCREASE_HF) := by
  simp only [rawNext, HEART_RATE_RECOVERY_DECREMENT, HRV_DECREASE_RMSSD,
    HRV_DECREASE_SDNN, HRV_DECREASE_PNN50, HRV_DECREASE_POWER,
    HRV_DECREASE_LF, HRV_DECREASE_HF]
  refine ⟨?_, ?_, ?_, ?_, ?_, ?_, ?_, trivial, ?_, ?_⟩
  · intro h
    exact ⟨le_max_left _ _, max_le h (by linarith)⟩
  · intro h
    exact ⟨le_max_left _ _, max_le h (by linarith)⟩
  · intro h
    exact ⟨le_max_left _ _, max_le h (by linarith)⟩
  · intro h
    exact ⟨le_max_left _ _, max_le h (by linarith)⟩
  · intro h
    exact ⟨le_max_left _ _, max_le h (by linarith)⟩
  · intro h
    exact ⟨le_max_left _ _, max_le h (by linarith)⟩
  · intro h
    exact ⟨le_max_left _ _, max_le h (by linarith)⟩
  · intro h0 h1200
    exact le_min h1200 (by linarith)
  · norm_num [HEART_RATE_STRESS_INCREMENT, HRV_INCREASE_RMSSD,
      HRV_INCREASE_SDNN, HRV_INCREASE_PNN50, HRV_INCREASE_POWER,
      HRV_INCREASE_LF, HRV_INCREASE_HF]

/-- Witness for cooldown_relaxation at the concrete in-range subject. -/
theorem cooldown_relaxation_witness :
    (50 ≤ (rawNext wJohn .cooldown).newMeanHR ∧
      (rawNext wJohn .cooldown).newMeanHR ≤ wJohn.hrv_mean_hr) ∧
    (15 ≤ (rawNext wJohn .cooldown).newRMSSD ∧
      (rawNext wJohn .cooldown).newRMSSD ≤ wJohn.hrv_rmssd) ∧
    wJohn.hrv_mean_nni ≤ (rawNext wJohn .cooldown).newMeanNNI := by
  refine ⟨?_, ?_, ?_⟩
  · exact (cooldown_relaxation wJohn).1 (by norm_num [wJohn])
  · exact (cooldown_relaxation wJohn).2.1 (by norm_num [wJohn])
  · exact (cooldown_relaxation wJohn).2.2.2.2.2.2.2.2.1
      (by norm_num [wJohn]) (by norm_num [wJohn])

/-- Normal form of stopSimulation: whether or not a timer was armed, the
resulting state is the same record. -/
theorem stopSimulation_eq (s : LoopState) :
    stopSimulation s =
      { interval := false
        stepCount := 0
        baselineTemperature := s.baselineTemperature
        baselineHumidity := s.baselineHumidity
        errorCount := 0
        consecutiveErrors := 0
        simulationType := none
        isActive := false
        currentWorkerValues := none
        ui := { isActive := false, type := none,
                targetWorker := s.ui.targetWorker,
                currentValues := s.ui.currentValues } } := by
  unfold stopSimulation clearSimulationInterval
  split <;> simp_all

/-! ### C8: resetToBaseline frame effect -/

/-- C8: resetToBaseline stops any active run, emits an update for the
resolved subject that replaces only the environmental fields with the
freshly generated profile's values and erases the three risk-annotation
fields; merging that update leaves every cardiac/HRV field (and the
identity fields) unchanged, and the emitted update is independent of the
Run-Descriptor baseline snapshot. -/
theorem resetToBaseline_spec (s : LoopState) (workers : List Worker)
    (freshWorker target : Worker)
    (hFind : findTargetWorker workers = some target) :
    (resetToBaseline s workers freshWorker).1 = stopSimulation s ∧
    (resetToBaseline s workers freshWorker).1.isActive = false ∧
    (resetToBaseline s workers freshWorker).1.interval = false ∧
    (resetToBaseline s workers freshWorker).2 =
      some (target.id, resetUpdate freshWorker) ∧
    (∀ w : Worker,
      (mergeWorker w (resetUpdate freshWorker)).temperature =
        freshWorker.temperature ∧
      (mergeWorker w (resetUpdate freshWorker)).humidity =
        freshWorker.humidity ∧
      (mergeWorker w (resetUpdate freshWorker)).riskScore = none ∧
      (mergeWorker w (resetUpdate freshWorker)).predictedClass = none ∧
      (mergeWorker w (resetUpdate freshWorker)).confidence = none ∧
      (mergeWorker w (resetUpdate freshWorker)).name = w.name ∧
      (mergeWorker w (resetUpdate freshWorker)).id = w.id ∧
      (mergeWorker w (resetUpdate freshWorker)).hrv_mean_hr = w.hrv_mean_hr ∧
      (mergeWorker w (resetUpdate freshWorker)).hrv_rmssd = w.hrv_rmssd ∧
      (mergeWorker w (resetUpdate freshWorker)).hrv_sdnn = w.hrv_sdnn ∧
      (mergeWorker w (resetUpdate freshWorker)).hrv_mean_nni =
        w.hrv_mean_nni ∧
      (mergeWorker w (resetUpdate freshWorker)).hrv_pnni_50 =
        w.hrv_pnni_50 ∧
      (mergeWorker w (resetUpdate freshWorker)).hrv_total_power =
        w.hrv_total_power ∧
      (mergeWorker w (resetUpdate freshWorker)).hrv_lf = w.hrv_lf ∧
      (mergeWorker w (resetUpdate freshWorker)).hrv_hf = w.hrv_hf ∧
      (mergeWorker w (resetUpdate freshWorker)).hrv_min_hr = w.hrv_min_hr ∧
      (mergeWorker w (resetUpdate freshWorker)).hrv_max_hr = w.hrv_max_hr ∧
      (mergeWorker w (resetUpdate freshWorker)).hrv_std_hr = w.hrv_std_hr ∧
      (mergeWorker w (resetUpdate freshWorker)).hrv_lf_hf_ratio =
        w.hrv_lf_hf_ratio ∧
      (mergeWorker w (resetUpdate freshWorker)).hrv_median_nni =
        w.hrv_median_nni ∧
      (mergeWorker w (resetUpdate freshWorker)).hrv_range_nni =
        w.hrv_range_nni ∧
      (mergeWorker w (resetUpdate freshWorker)).hrv_cvnni = w.hrv_cvnni) ∧
    (∀ b1 b2 : Option ℚ,
      (resetToBaseline
        { s with baselineTemperature := b1, baselineHumidity := b2 }
        workers freshWorker).2 =
      (resetToBaseline s workers freshWorker).2) := by
  refine ⟨?_, ?_, ?_, ?_, ?_, ?_⟩
  · simp [resetToBaseline, hFind]
  · simp [resetToBaseline, hFind, stopSimulation_eq]
  · simp [resetToBaseline, hFind, stopSimulation_eq]
  · simp [resetToBaseline, hFind]
  · intro w
    simp [mergeWorker, resetUpdate]
  · intro b1 b2
    simp [resetToBaseline, hFind]

/-- Witness for resetToBaseline_spec with a concrete worker list. -/
theorem resetToBaseline_spec_witness :
    (resetToBaseline (runningState .heatup wJohn) [wJohn] wSaturated).1 =
      stopSimulation (runningState .heatup wJohn) ∧
    (resetToBaseline (runningState .heatup wJohn) [wJohn]
      wSaturated).1.isActive = false ∧
    (resetToBaseline (runningState .heatup wJohn) [wJohn] wSaturated).2 =
      some (wJohn.id, resetUpdate wSaturated) := by
  have hFind : findTargetWorker [wJohn] = some wJohn := by
    simp [findTargetWorker, wJohn]
  have h := resetToBaseline_spec (runningState .heatup wJohn) [wJohn]
    wSaturated wJohn hFind
  exact ⟨h.1, h.2.1, h.2.2.2.1⟩

/-! ### C9: idempotent teardown -/

/-- The Idle shape of the loop state: timer cleared, mode null, inactive,
cache cleared, all counters zero, UI showing inactive. -/
def IsIdle (s : LoopState) : Prop :=
  s.interval = false ∧ s.simulationType = none ∧ s.isActive = false ∧
  s.currentWorkerValues = none ∧ s.stepCount = 0 ∧ s.errorCount = 0 ∧
  s.consecutiveErrors = 0 ∧ s.ui.isActive = false ∧ s.ui.type = none

/-- C9: stopSimulation is idempotent — calling the teardown twice in a
row produces observable state identical to calling it once, the teardown
always leaves an Idle state, calling stopSimulation on an Idle state is
a no-op, and clearing a timer that is already cleared has no effect. -/
theorem stopSimulation_idempotent :
    (∀ s : LoopState,
      stopSimulation (stopSimulation s) = stopSimulation s) ∧
    (∀ s : LoopState, IsIdle (stopSimulation s)) ∧
    (∀ s : LoopState, IsIdle s → stopSimulation s = s) ∧
    (∀ s : LoopState, s.interval = false → clearSimulationInterval s = s) := by
  refine ⟨?_, ?_, ?_, ?_⟩
  · intro s
    simp [stopSimulation_eq]
  · intro s
    simp [IsIdle, stopSimulation_eq]
  · intro s hIdle
    obtain ⟨i, sc, bT, bH, ec, ce, st, ia, cw, ⟨ua, ut, utw, ucv⟩⟩ := s
    obtain ⟨h1, h2, h3, h4, h5, h6, h7, h8, h9⟩ := hIdle
    simp_all only []
    subst h1 h2 h3 h4 h5 h6 h7 h8 h9
    simp [stopSimulation_eq]
  · intro s hInterval
    simp [clearSimulationInterval, hInterval]

/-- Witness for stopSimulation_idempotent, exercising the Idle no-op at
a concrete Idle state. -/
theorem stopSimulation_idempotent_witness :
    IsIdle (stopSimulation (runningState .heatup wJohn)) ∧
    stopSimulation (stopSimulation (runningState .heatup wJohn)) =
      stopSimulation (runningState .heatup wJohn) ∧
    clearSimulationInterval (stopSimulation (runningState .heatup wJohn)) =
      stopSimulation (runningState .heatup wJohn) := by
  refine ⟨stopSimulation_idempotent.2.1 _, stopSimulation_idempotent.1 _, ?_⟩
  exact stopSimulation_idempotent.2.2.2 _
    (stopSimulation_idempotent.2.1 (runningState .heatup wJohn)).1

/-! ### C10: model loaders never reject -/

/-- An input with both required fields missing. -/
def piEmpty : PredictionInput := {}

/-- An input with both required fields present. -/
def piOk : PredictionInput := { Temperature := some 22, Humidity := some 45 }

/-- A successful Python reply. -/
def pyOk : PyResult := ⟨1/2, "warm", 9/10, none⟩

/-- C10: predict resolves for every input and every behaviour of the
spawned process; whenever its try block fails (missing required field,
spawn failure, non-zero exit, unparseable output, timeout, or a truthy
error field in the reply) it resolves with risk_score 0,
predicted_class "error", confidence 0 and a non-empty error message;
when the try block succeeds it returns the parsed result, whose error
field is never truthy — so failure is detectable only from that field.
The pure-JS loader's predict has the same shape: its result either has
no error field or is the error-shaped triple with a non-empty
message. -/
theorem predict_never_rejects :
    (∀ (i : PredictionInput) (o : PythonOutcome) (e : String),
      predictTry i o = .error e →
      predict i o = ⟨0, "error", 0, some e⟩ ∧ e ≠ "") ∧
    (∀ (i : PredictionInput) (o : PythonOutcome) (r : PredictionResult),
      predictTry i o = .ok r →
      predict i o = r ∧ errorTruthy r.error = false) ∧
    (∀ (i : PredictionInput) (b : Bool),
      (jsPredict i b).error = none ∨
      ∃ m, jsPredict i b = ⟨0, "error", 0, some m⟩ ∧ m ≠ "") := by
  refine ⟨?_, ?_, ?_⟩
  · intro i o e h
    have hp : predict i o = ⟨0, "error", 0, some e⟩ := by
      simp [predict, h]
    refine ⟨hp, ?_⟩
    unfold predictTry at h
    split_ifs at h with hv
    · simp only [Except.error.injEq] at h
      subst h
      simp [String.ext_iff]
    · cases o with
      | spawnError message =>
        simp only [callPythonScript, Except.error.injEq] at h
        subst h
        simp [String.ext_iff]
      | nonZeroExit code stderr =>
        simp only [callPythonScript, Except.error.injEq] at h
        subst h
        simp [String.ext_iff]
      | parseFailure raw =>
        simp only [callPythonScript, Except.error.injEq] at h
        subst h
        simp [String.ext_iff]
      | timedOut =>
        simp only [callPythonScript, Except.error.injEq] at h
        subst h
        simp [String.ext_iff]
      | ok result =>
        simp only [callPythonScript] at h
        by_cases ht : errorTruthy result.error = true
        · rw [if_pos ht] at h
          simp only [Except.error.injEq] at h
          subst h
          cases he : result.error with
          | none => simp [he, errorTruthy] at ht
          | some msg =>
            simp only [he, errorTruthy, decide_eq_true_eq] at ht
            simpa [he] using ht
        · rw [if_neg ht] at h
          cases h
  · intro i o r h
    have hp : predict i o = r := by simp [predict, h]
    refine ⟨hp, ?_⟩
    unfold predictTry at h
    split_ifs at h with hv
    · cases o with
      | ok result =>
        simp only [callPythonScript] at h
        by_cases ht : errorTruthy result.error = true
        · rw [if_pos ht] at h
          exact absurd h (by simp)
        · rw [if_neg ht] at h
          simp only [Except.ok.injEq] at h
          subst h
          simpa using ht
      | spawnError message => simp [callPythonScript] at h
      | nonZeroExit code stderr => simp [callPythonScript] at h
      | parseFailure raw => simp [callPythonScript] at h
      | timedOut => simp [callPythonScript] at h
  · intro i b
    unfold jsPredict
    split_ifs
    · exact Or.inr ⟨_, rfl, by simp [String.ext_iff]⟩
    · exact Or.inr ⟨_, rfl, by simp [String.ext_iff]⟩
    · exact Or.inl rfl

/-- Witness for predict_never_rejects: a failing call (validation), a
successful call, and the JS loader at a concrete input. -/
theorem predict_never_rejects_witness :
    (predict piEmpty .timedOut =
      ⟨0, "error", 0, some "Temperature and Humidity are required fields"⟩ ∧
      "Temperature and Humidity are required fields" ≠ "") ∧
    (predict piOk (.ok pyOk) = ⟨1/2, "warm", 9/10, none⟩ ∧
      errorTruthy (none : Option String) = false) ∧
    ((jsPredict piOk true).error = none ∨
      ∃ m, jsPredict piOk true = ⟨0, "error", 0, some m⟩ ∧ m ≠ "") := by
  refine ⟨?_, ?_, predict_never_rejects.2.2 piOk true⟩
  · exact predict_never_rejects.1 piEmpty .timedOut
      "Temperature and Humidity are required fields" rfl
  · exact predict_never_rejects.2.1 piOk (.ok pyOk) ⟨1/2, "warm", 9/10, none⟩
      rfl

/-! ### C5: single-flight scheduling -/

/-- C5: the timer-driven tick body is not single-flight.  From a running
state with a cached subject, a second timer firing while the first
tick's oracle call is still pending passes every guard and suspends a
second tick (two ticks in flight at once); when both oracle calls then
return, the second tick's continuation commits its own updates — the
spurious firing is not a no-op: the step counter advances from 1 to 2 —
and because both ticks read the same cached state, the temperature
advances by only one increment (22 to 23.2) across two committed
steps. -/
theorem tick_not_single_flight :
    ((timerFire ((timerFire ⟨runningState .heatup wJohn, []⟩ []).1)
      []).1).pending.length = 2 ∧
    ((oracleReturn
        ((timerFire ((timerFire ⟨runningState .heatup wJohn, []⟩ []).1)
          []).1)
        (.success pSample)).1).loop.stepCount = 1 ∧
    ((oracleReturn
        ((oracleReturn
          ((timerFire ((timerFire ⟨runningState .heatup wJohn, []⟩ []).1)
            []).1)
          (.success pSample)).1)
        (.success pSample)).1).loop.stepCount = 2 ∧
    ((oracleReturn
        ((oracleReturn
          ((timerFire ((timerFire ⟨runningState .heatup wJohn, []⟩ []).1)
            []).1)
          (.success pSample)).1)
        (.success pSample)).1).loop.currentWorkerValues.map
      Worker.temperature = some (116/5) := by
  refine ⟨?_, ?_, ?_, ?_⟩ <;>
    norm_num [timerFire, oracleReturn, resumeAfterOracle, runningState,
      wJohn, calculateNextSimulationValues, rawNext, mergeWorker, toUpdate,
      pSample, shouldContinueSimulation, stopSimulation_eq, round1, jsRound,
      min_def, max_def, MAX_SIMULATION_STEPS, MAX_TEMPERATURE, MAX_HUMIDITY,
      MIN_TEMPERATURE, MIN_HUMIDITY, TEMPERATURE_INCREMENT,
      HUMIDITY_INCREMENT, HEART_RATE_STRESS_INCREMENT, HRV_INCREASE_RMSSD,
      HRV_INCREASE_SDNN, HRV_INCREASE_PNN50, HRV_INCREASE_POWER,
      HRV_INCREASE_LF, HRV_INCREASE_HF]

end HealthSim
